import Mathlib

/-!
Verification of the product-catalog front end's core routines:
the dimension-to-area quantity calculator (ProductForm quantity useEffect),
the product-detail provenance formula (`calculateQuantityFormula`),
the bookmatch canvas compositor (`createBookmatchedTexture`),
the QR card text-wrapping loop, the QR payload URL builder, the QR
encoding options at each call site, and the product-image list bounds.

JavaScript numbers are modelled as rationals (ℚ); the inputs exercised by
the program are short decimal literals, which are exact in both doubles
and ℚ.  `Math.round`, `toFixed(2)` and number-to-string formatting are
modelled on ℚ accordingly (number-to-string prints the terminating
decimal expansion, which matches JS shortest-round-trip printing on the
decimal-literal values these routines handle).
-/

namespace Evershine

/-- Whitespace test used to model `\s` / `parseFloat` leading-space
skipping (the ASCII whitespace characters the inputs can contain). -/
def isWsChar (c : Char) : Bool :=
  c = ' ' || c = '\t' || c = '\n' || c = '\r'

/-- Numeric value of a list of decimal digit characters. -/
def digitsVal (cs : List Char) : ℕ :=
  cs.foldl (fun a c => 10 * a + (c.toNat - 48)) 0

/-- Model of JavaScript `Number.parseFloat`: skip leading whitespace, an
optional sign, then the longest prefix `digits [ "." digits ]` (trailing
garbage ignored); `none` models `NaN` (no digits at all).  The exponent
and `Infinity` forms, unused by this program's inputs, are omitted. -/
def jsParseFloat (s : String) : Option ℚ :=
  let cs := s.data.dropWhile isWsChar
  let signAndRest : ℚ × List Char :=
    match cs with
    | '-' :: t => (-1, t)
    | '+' :: t => (1, t)
    | _ => (1, cs)
  let sgn := signAndRest.1
  let cs2 := signAndRest.2
  let ip := cs2.takeWhile Char.isDigit
  let rest := cs2.dropWhile Char.isDigit
  let fp : List Char :=
    match rest with
    | '.' :: t => t.takeWhile Char.isDigit
    | _ => []
  if ip = [] ∧ fp = [] then none
  else some (sgn * ((digitsVal ip : ℚ) + (digitsVal fp : ℚ) / (10 : ℚ) ^ fp.length))

/-- Model of JavaScript `Math.round`: round half toward +∞. -/
def jsMathRound (q : ℚ) : ℤ := ⌊q + 1/2⌋

/-- Two-digit zero-padded print of a natural number below 100. -/
def twoDigits (n : ℕ) : String :=
  if n < 10 then "0" ++ Nat.repr n else Nat.repr n

/-- Model of JavaScript `(q).toFixed(2)`: round to the nearest hundredth
(ties toward +∞, as the JS spec's "pick the larger n") and print with
exactly two fractional digits. -/
def jsToFixed2 (q : ℚ) : String :=
  let n := jsMathRound (q * 100)
  (if n < 0 then "-" else "") ++ Nat.repr (n.natAbs / 100) ++ "." ++ twoDigits (n.natAbs % 100)

/-- Fractional digits of `x ∈ [0,1)`, printed until the expansion
terminates (with fuel; the decimal-literal values this program handles
always terminate well within it). -/
def fracDigits : ℕ → ℚ → String
  | 0, _ => ""
  | n + 1, x =>
    if x = 0 then ""
    else
      let d := ⌊x * 10⌋
      d.natAbs.repr ++ fracDigits n (x * 10 - d)

/-- Model of JavaScript number-to-string (template-literal interpolation
`${n}` and `Number.prototype.toString`) on the exact decimal values this
program produces: integer part, then the terminating fractional
expansion when nonzero. -/
def jsNumToString (q : ℚ) : String :=
  let a := if q < 0 then "-" else ""
  let m := |q|
  let i := ⌊m⌋.toNat
  let f := m - i
  if f = 0 then a ++ Nat.repr i else a ++ Nat.repr i ++ "." ++ fracDigits 60 f

/-- Divisor chosen by the product form's quantity calculation:
`sizeUnit === "in"` selects 144 (square inches per square foot), any
other unit falls to the `else` branch's 929. -/
def formDivisor (sizeUnit : String) : ℚ :=
  if sizeUnit = "in" then 144 else 929

/-- The provenance string the form builds, echoing the parsed operands
and the divisor, with the unrounded quotient shown via `toFixed(2)`:
`` `(${length} × ${height} × ${pieces}) ÷ ${d} = ${q.toFixed(2)} sqft` ``. -/
def areaFormula (sizeUnit : String) (l h p : ℚ) : String :=
  "(" ++ jsNumToString l ++ " × " ++ jsNumToString h ++ " × " ++ jsNumToString p
    ++ ") ÷ " ++ (if sizeUnit = "in" then "144" else "929")
    ++ " = " ++ jsToFixed2 (l * h * p / formDivisor sizeUnit) ++ " sqft"

/-- The ephemeral result of the form's quantity calculation: the rounded
area written into `quantityAvailable` and the preview formula string. -/
structure AreaResult where
  totalArea : ℚ
  formula : String
deriving DecidableEq, Repr

/-- The successful-parse arm of the form's quantity calculation:
`(length * height * pieces) / divisor`, rounded to 2 decimal places with
`Math.round(q * 100) / 100`, plus the preview formula string (which shows
the unrounded quotient via `toFixed(2)`). -/
def areaCore (sizeUnit : String) (l h p : ℚ) : AreaResult :=
  ⟨(jsMathRound (l * h * p / formDivisor sizeUnit * 100) : ℚ) / 100,
    areaFormula sizeUnit l h p⟩

/-- The product form's quantity calculation (the body of the
quantity-calculation `useEffect`, as a function of its four inputs, with
auto-calculate enabled): empty inputs or `NaN` parses produce no result;
otherwise `areaCore`.  Zero or negative parses are NOT filtered: the
source checks only `isNaN`. -/
def computeArea (sizeLength sizeHeight sizeUnit numberOfPieces : String) :
    Option AreaResult :=
  if sizeLength = "" ∨ sizeHeight = "" ∨ numberOfPieces = "" then none
  else
    match jsParseFloat sizeLength, jsParseFloat sizeHeight, jsParseFloat numberOfPieces with
    | some l, some h, some p => some (areaCore sizeUnit l h p)
    | _, _, _ => none

/-! Evaluation helpers: `Rat` arithmetic does not reduce in the kernel,
so concrete values of `jsMathRound` and the formatting functions are
established through `Int.floor_eq_iff` and `norm_num`. -/

theorem jsMathRound_eq_of (q : ℚ) (n : ℤ) (h₁ : (n : ℚ) ≤ q + 1/2)
    (h₂ : q + 1/2 < n + 1) : jsMathRound q = n := by
  unfold jsMathRound
  exact Int.floor_eq_iff.mpr ⟨h₁, h₂⟩

theorem jsToFixed2_eq_of (q : ℚ) (n : ℤ) (h : jsMathRound (q * 100) = n) :
    jsToFixed2 q =
      (if n < 0 then "-" else "") ++ Nat.repr (n.natAbs / 100) ++ "." ++
        twoDigits (n.natAbs % 100) := by
  unfold jsToFixed2
  rw [h]

theorem jsNumToString_intCast (n : ℤ) :
    jsNumToString (n : ℚ) = (if n < 0 then "-" else "") ++ Nat.repr n.natAbs := by
  simp only [jsNumToString]
  have habs : |(n : ℚ)| = ((n.natAbs : ℕ) : ℚ) := by
    rw [← Int.cast_abs, Int.abs_eq_natAbs, Int.cast_natCast]
  rw [habs, Int.floor_natCast, Int.toNat_natCast, sub_self]
  simp only [eq_self_iff_true, if_true, Int.cast_lt_zero]

theorem jsNumToString_natCast (n : ℕ) : jsNumToString (n : ℚ) = Nat.repr n := by
  have h := jsNumToString_intCast (n : ℤ)
  simp only [Int.cast_natCast] at h
  rw [h, if_neg (by omega), Int.natAbs_ofNat]
  rfl

/-! ## Form state and the quantity-calculation effect (ProductForm) -/

/-- The slice of the ProductForm state the quantity-calculation
`useEffect` reads and writes:  the four watched inputs, the
`quantityAvailable` field it overwrites, the calculation preview and the
size-parse error, plus the auto-calculate toggle. -/
structure QuantityFormState where
  sizeLength : String
  sizeHeight : String
  sizeUnit : String
  numberOfPieces : String
  quantityAvailable : String
  calculationPreview : Option String
  sizeParseError : Option String
  autoCalculateQuantity : Bool
deriving DecidableEq, Repr

/-- One run of the quantity-calculation `useEffect`: with auto-calculate
off it only clears the preview; with any watched input empty it clears
error and preview; with a `NaN` parse it sets the parse-error message;
otherwise it overwrites `quantityAvailable` with the rounded area
(stringified) and publishes the preview formula. -/
def runQuantityEffect (s : QuantityFormState) : QuantityFormState :=
  if s.autoCalculateQuantity = false then
    { s with calculationPreview := none }
  else if s.sizeLength = "" ∨ s.sizeHeight = "" ∨ s.numberOfPieces = "" then
    { s with sizeParseError := none, calculationPreview := none }
  else
    match jsParseFloat s.sizeLength, jsParseFloat s.sizeHeight,
        jsParseFloat s.numberOfPieces with
    | some l, some h, some p =>
        let r := areaCore s.sizeUnit l h p
        { s with sizeParseError := none,
                 quantityAvailable := jsNumToString r.totalArea,
                 calculationPreview := some r.formula }
    | _, _, _ =>
        { s with sizeParseError := some "Please enter valid numbers for size and pieces",
                 calculationPreview := none }

/-! ## The product-detail provenance formula (`calculateQuantityFormula`) -/

/-- One numeric capture of the size regex `(\d+(?:\.\d+)?)`: a nonempty
digit run, optionally followed by a dot and a nonempty digit run;
returns the parsed value and the unconsumed remainder. -/
def matchSizeNumber (cs : List Char) : Option (ℚ × List Char) :=
  let ip := cs.takeWhile Char.isDigit
  if ip = [] then none
  else
    let rest := cs.dropWhile Char.isDigit
    match rest with
    | '.' :: t =>
        let fp := t.takeWhile Char.isDigit
        if fp = [] then none
        else some ((digitsVal ip : ℚ) + (digitsVal fp : ℚ) / (10 : ℚ) ^ fp.length,
          t.drop fp.length)
    | _ => some ((digitsVal ip : ℚ), rest)

/-- The detail page's template string for the recomputed provenance
formula: it branches on `sizeUnit === "inches"` (NOT on the `"in"` the
form actually stores) to pick 144, all other units fall to 929. -/
def calcQuantityFormulaStr (sizeUnit : String) (l h p : ℚ) : String :=
  if sizeUnit = "inches" then
    "(" ++ jsNumToString l ++ " × " ++ jsNumToString h ++ " × " ++ jsNumToString p
      ++ ") ÷ 144 = " ++ jsToFixed2 (l * h * p / 144) ++ " sqft"
  else
    "(" ++ jsNumToString l ++ " × " ++ jsNumToString h ++ " × " ++ jsNumToString p
      ++ ") ÷ 929 = " ++ jsToFixed2 (l * h * p / 929) ++ " sqft"

/-- `calculateQuantityFormula(size, sizeUnit, numberOfPieces)` of the
product-detail page: falsy guard on `size`/`numberOfPieces`, whitespace
removal, the regex `^(\d+(?:\.\d+)?)[x*-](\d+(?:\.\d+)?)$`, then the
unit-branched formula string. -/
def calculateQuantityFormula (size sizeUnit : String) (numberOfPieces : ℚ) :
    Option String :=
  if size = "" ∨ numberOfPieces = 0 then none
  else
    let cleaned := size.data.filter (fun c => isWsChar c = false)
    match matchSizeNumber cleaned with
    | none => none
    | some (l, rest) =>
      match rest with
      | sep :: rest2 =>
        if sep = 'x' ∨ sep = '*' ∨ sep = '-' then
          match matchSizeNumber rest2 with
          | some (h, []) => some (calcQuantityFormulaStr sizeUnit l h numberOfPieces)
          | _ => none
        else none
      | [] => none

/-! ## The bookmatch canvas compositor (`createBookmatchedTexture`) -/

/-- One `ctx.save(); ctx.translate(tx, ty); ctx.scale(sx, sy);
ctx.drawImage(img, dx, dy, w, h); ctx.restore()` sequence.  The
untransformed draws are ops with `tx = ty = 0`, `sx = sy = 1`. -/
structure DrawOp where
  tx : ℤ
  ty : ℤ
  sx : ℤ
  sy : ℤ
  dx : ℤ
  dy : ℤ
deriving DecidableEq, Repr

/-- A placed cell of the composition: top-left corner of the destination
rectangle on the canvas, and whether the source appears mirrored on each
axis. -/
structure Tile where
  posX : ℤ
  posY : ℤ
  flipX : Bool
  flipY : Bool
deriving DecidableEq, Repr

/-- Semantics of a draw op for a `w × h` source: the destination
rectangle is the image of `[dx, dx+w] × [dy, dy+h]` under
`x ↦ tx + sx·x`, `y ↦ ty + sy·y`; a negative scale mirrors that axis. -/
def tileOf (w h : ℕ) (op : DrawOp) : Tile :=
  ⟨min (op.tx + op.sx * op.dx) (op.tx + op.sx * (op.dx + w)),
   min (op.ty + op.sy * op.dy) (op.ty + op.sy * (op.dy + h)),
   decide (op.sx < 0), decide (op.sy < 0)⟩

/-- The 2×2 special-size branch: original, horizontal mirror translated
to `canvas.width`, vertical mirror translated to `canvas.height`, and
both-axis mirror translated to the far corner. -/
def squareQuadrantOps (w h : ℕ) : List DrawOp :=
  [⟨0, 0, 1, 1, 0, 0⟩,
   ⟨2 * w, 0, -1, 1, 0, 0⟩,
   ⟨0, 2 * h, 1, -1, 0, 0⟩,
   ⟨2 * w, 2 * h, -1, -1, 0, 0⟩]

/-- One cell of the nearly-square 4×4 branch:
`translate(posX + (flipX ? w : 0), posY + (flipY ? h : 0))`,
`scale(flipX ? -1 : 1, flipY ? -1 : 1)`, draw at the origin. -/
def nearSquareCellOp (w h x y : ℕ) : DrawOp :=
  ⟨(x : ℤ) * w + (if x % 2 = 1 then (w : ℤ) else 0),
   (y : ℤ) * h + (if y % 2 = 1 then (h : ℤ) else 0),
   if x % 2 = 1 then -1 else 1,
   if y % 2 = 1 then -1 else 1,
   0, 0⟩

/-- One cell of the non-square 4×4 branch, with its explicit four-way
split on combined horizontal/vertical flip; the no-flip case draws
directly at `(posX, posY)` with no transform. -/
def gridCellOp (w h x y : ℕ) : DrawOp :=
  if x % 2 = 1 ∧ y % 2 = 1 then
    ⟨(x : ℤ) * w + w, (y : ℤ) * h + h, -1, -1, 0, 0⟩
  else if x % 2 = 1 then
    ⟨(x : ℤ) * w + w, (y : ℤ) * h, -1, 1, 0, 0⟩
  else if y % 2 = 1 then
    ⟨(x : ℤ) * w, (y : ℤ) * h + h, 1, -1, 0, 0⟩
  else
    ⟨0, 0, 1, 1, (x : ℤ) * w, (y : ℤ) * h⟩

/-- `createBookmatchedTexture`'s `img.onload` body as a function of the
loaded image's dimensions: canvas size and draw list.  Exact 488×488 or
646×646 gets the 2×2 quadrant branch; otherwise
`Math.abs(w - h) < 20` picks the nearly-square 4×4 branch, anything
else the non-square 4×4 branch. -/
def createBookmatchedDraws (w h : ℕ) : (ℕ × ℕ) × List DrawOp :=
  if (w = 488 ∧ h = 488) ∨ (w = 646 ∧ h = 646) then
    ((2 * w, 2 * h), squareQuadrantOps w h)
  else if ((w : ℤ) - h).natAbs < 20 then
    ((4 * w, 4 * h),
      (List.range 4).flatMap fun y => (List.range 4).map fun x => nearSquareCellOp w h x y)
  else
    ((4 * w, 4 * h),
      (List.range 4).flatMap fun y => (List.range 4).map fun x => gridCellOp w h x y)

/-- The tile the claim describes for cell `(x, y)` of a 4×4 grid:
placed at `(x·w, y·h)`, flipped horizontally exactly when the column
index is odd and vertically exactly when the row index is odd. -/
def claimGridTile (w h x y : ℕ) : Tile :=
  ⟨(x : ℤ) * w, (y : ℤ) * h, decide (x % 2 = 1), decide (y % 2 = 1)⟩

/-- The composited texture held in `bookmatchedTextureRef`: either the
data URL of the composed canvas or, on load failure, the original
product image URL. -/
inductive Texture where
  | composited (spec : (ℕ × ℕ) × List DrawOp)
  | original (url : String)
deriving DecidableEq, Repr

/-- Outcome of the `img` element's load: `onload` with the decoded
dimensions, or `onerror`. -/
inductive LoadOutcome where
  | loaded (w h : ℕ)
  | failed
deriving DecidableEq, Repr

/-- Resulting texture state after `createBookmatchedTexture(imageUrl)`
resolves its image load (fresh ref, 2D context available): `onload`
stores the composited canvas and marks ready; `onerror` falls back to
the original `imageUrl` and also marks ready. -/
def bookmatchResult (imageUrl : String) : LoadOutcome → Texture × Bool
  | .loaded w h => (.composited (createBookmatchedDraws w h), true)
  | .failed => (.original imageUrl, true)

/-! ## QR card text wrapping (shared verbatim by the product-list
download and the `QRCodeGenerator` component) -/

/-- `word.charAt(0).toUpperCase() + word.slice(1).toLowerCase()`. -/
def capitalizeWord (w : String) : String :=
  match w.data with
  | [] => ""
  | c :: rest => String.mk (c.toUpper :: rest.map Char.toLower)

/-- Split a character list at every space, keeping empty segments —
the semantics of JavaScript `split(" ")`. -/
def splitSpaceChars : List Char → List (List Char)
  | [] => [[]]
  | c :: t =>
    match splitSpaceChars t with
    | [] => [[c]]
    | seg :: segs => if c = ' ' then [] :: seg :: segs else (c :: seg) :: segs

/-- JavaScript `s.split(" ")`. -/
def splitOnSpace (s : String) : List String :=
  (splitSpaceChars s.data).map String.mk

/-- `productName.split(" ").map(capitalize).join(" ")`. -/
def capitalizeName (name : String) : String :=
  String.intercalate " " ((splitOnSpace name).map capitalizeWord)

/-- The wrapping `for` loop plus the trailing `if (lineCount < maxLines)
fillText(line)`, with `maxLines = 3` and line height 20 inlined from the
source.  Arguments mirror the loop state: remaining words, accumulated
`line`, current `y`, `lineCount`, and whether the current word is the
first (`i = 0`, which never wraps).  Produces the list of
`ctx.fillText` events as (string, y) pairs, in drawing order.  Note the
`break` in the source only exits the loop, so the trailing draw still
runs after the ellipsis draw. -/
def wrapGo (measure : String → ℚ) (maxWidth : ℚ) :
    List String → String → ℕ → ℕ → Bool → List (String × ℕ)
  | [], line, y, lineCount, _ =>
      if lineCount < 3 then [(line, y)] else []
  | word :: rest, line, y, lineCount, first =>
      if 2 ≤ lineCount ∧ rest ≠ [] then
        (line ++ "...", y) :: (if lineCount < 3 then [(line, y)] else [])
      else
        let testLine := line ++ word ++ " "
        if maxWidth < measure testLine ∧ first = false then
          (line, y) :: wrapGo measure maxWidth rest (word ++ " ") (y + 20) (lineCount + 1) false
        else
          wrapGo measure maxWidth rest testLine y lineCount false

/-- The whole name-rendering block: capitalize the product name, split
into words, and run the wrap loop from an empty line at
`textY = 810` with `lineCount = 0`. -/
def wrapProductName (measure : String → ℚ) (maxWidth : ℚ) (name : String) :
    List (String × ℕ) :=
  wrapGo measure maxWidth (splitOnSpace (capitalizeName name)) "" 810 0 true

/-! ## QR payload URL -/

/-- The pieces of `window.location` the URL builders read. -/
structure WindowLoc where
  protocol : String
  host : String
deriving DecidableEq, Repr

/-- `window.location.origin` (`protocol + "//" + host` for the URLs this
app runs on). -/
def windowOrigin (w : WindowLoc) : String :=
  w.protocol ++ "//" ++ w.host

/-- The product URL built at the `window.location.origin` call sites
(product-list download, product-form `generateQRCode`, product-detail
download and simple download):
`` `${window.location.origin}/product/${postId}` ``. -/
def buildProductUrl (w : WindowLoc) (productId : String) : String :=
  windowOrigin w ++ "/product/" ++ productId

/-- The `QRCodeGenerator` variant, which guards on
`typeof window !== "undefined"` and falls back to the fixed production
URL when no browsing context exists. -/
def buildProductUrlGen (w : Option WindowLoc) (productId : String) : String :=
  (match w with
   | some w => w.protocol ++ "//" ++ w.host
   | none => "https://evershine-agent.vercel.app") ++ "/product/" ++ productId

/-! ## QR encoding options -/

/-- The options object passed to `QRCode.toDataURL`: the two optional
knobs the library call sites set plus the colour pair; the
error-correction level is never supplied (`none`). -/
structure QROptions where
  width : ℕ
  margin : ℕ
  dark : String
  light : String
  errorCorrectionLevel : Option String
deriving DecidableEq, Repr

/-- Product-list page `generateAndDownloadQR`. -/
def listPageQROptions : QROptions := ⟨200, 1, "#000000", "#ffffff", none⟩

/-- Product-form `generateQRCode` (post-create). -/
def productFormQROptions : QROptions := ⟨200, 2, "#000000", "#ffffff", none⟩

/-- `QRCodeGenerator.generateQRCode` (branded card). -/
def generatorQROptions : QROptions := ⟨200, 1, "#000000", "#ffffff", none⟩

/-- Product-detail `handleDownloadQRCode`. -/
def detailDownloadQROptions : QROptions := ⟨200, 1, "#000000", "#ffffff", none⟩

/-- Product-detail `downloadSimpleQRCode`. -/
def simpleDownloadQROptions : QROptions := ⟨300, 1, "#000000", "#ffffff", none⟩

/-! ## Product-form image list (`handleImageChange` / `removeImage`) -/

/-- The attributes of a selected `File` the handlers inspect, plus the
object URL `URL.createObjectURL` would mint for its preview. -/
structure ImgFile where
  ftype : String
  fsize : ℕ
  furl : String
deriving DecidableEq, Repr

/-- `ACCEPTED_IMAGE_TYPES`. -/
def acceptedImageTypes : List String :=
  ["image/jpeg", "image/jpg", "image/png", "image/webp"]

/-- `MAX_FILE_SIZE` (5 MB). -/
def maxFileSize : ℕ := 5 * 1024 * 1024

/-- `validateImage`: type must be accepted and size at most 5 MB. -/
def validateImage (f : ImgFile) : Bool :=
  if (acceptedImageTypes.contains f.ftype) = false then false
  else if maxFileSize < f.fsize then false
  else true

/-- The error message `validateImage` sets for an invalid file (type
checked first, then size). -/
def validateMessage (f : ImgFile) : String :=
  if (acceptedImageTypes.contains f.ftype) = false then
    "Invalid file type. Only JPG, PNG and WebP are allowed"
  else "File size too large. Maximum size is 5MB"

inductive FormMode where
  | create
  | edit
deriving DecidableEq, Repr

/-- The slice of ProductForm state the image handlers touch.
`initialCount` is `initialData.image.length` in edit mode (0 in create
mode); in edit mode `previews` starts as those server image URLs while
`images` holds only newly added files. -/
structure ImagesState where
  mode : FormMode
  initialCount : ℕ
  images : List ImgFile
  previews : List String
  message : Option String
deriving DecidableEq, Repr

/-- `handleImageChange`: reject wholesale (with the limit message) when
`images.length + files.length > 10`; otherwise validate each file (the
filter's `validateImage` calls leave the last invalid file's message),
return unchanged lists if any file failed, else append the files and
their object URLs. -/
def handleImageChange (s : ImagesState) (files : List ImgFile) : ImagesState :=
  if 10 < s.images.length + files.length then
    { s with message := some "You can only upload up to 10 images in total" }
  else
    let validFiles := files.filter validateImage
    let withMsg :=
      match (files.filter fun f => validateImage f = false).getLast? with
      | some f => { s with message := some (validateMessage f) }
      | none => s
    if validFiles.length ≠ files.length then withMsg
    else
      { withMsg with images := withMsg.images ++ validFiles,
                     previews := withMsg.previews ++ validFiles.map ImgFile.furl }

/-- `removeImage(index)`: in edit mode an index below `initialCount`
removes only the server preview; otherwise the index is shifted by
`initialCount` (edit mode) and both the file and its preview are
spliced out.  `splice(i, 1)` at an out-of-range non-negative index
removes nothing, matching `List.eraseIdx`. -/
def removeImage (s : ImagesState) (index : ℕ) : ImagesState :=
  if s.mode = FormMode.edit ∧ index < s.initialCount then
    { s with previews := s.previews.eraseIdx index }
  else
    let adjustedIndex := if s.mode = FormMode.edit then index - s.initialCount else index
    { s with images := s.images.eraseIdx adjustedIndex,
             previews := s.previews.eraseIdx index }

/-- Image-list states of a form session: a create session starts empty;
an edit session starts with the product's stored image URLs (at most 10,
as create enforces) as previews and no new files; then any sequence of
additions and removals. -/
inductive ReachableImages : ImagesState → Prop where
  | initCreate : ReachableImages ⟨FormMode.create, 0, [], [], none⟩
  | initEdit (urls : List String) (h : urls.length ≤ 10) :
      ReachableImages ⟨FormMode.edit, urls.length, [], urls, none⟩
  | add (s : ImagesState) (files : List ImgFile) :
      ReachableImages s → ReachableImages (handleImageChange s files)
  | remove (s : ImagesState) (i : ℕ) :
      ReachableImages s → ReachableImages (removeImage s i)

/-! ## Shared evaluation lemmas -/

theorem jsMathRound_eq_round (q : ℚ) : jsMathRound q = round q := by
  unfold jsMathRound
  exact (round_eq q).symm

theorem jsParseFloat_empty : jsParseFloat "" = none := by decide

theorem parse_sixty : jsParseFloat "60" = some 60 := by
  simp +decide [jsParseFloat, digitsVal, isWsChar, Char.isDigit, List.dropWhile,
    List.takeWhile]

theorem parse_onetwenty : jsParseFloat "120" = some 120 := by
  simp +decide [jsParseFloat, digitsVal, isWsChar, Char.isDigit, List.dropWhile,
    List.takeWhile]

theorem parse_ten : jsParseFloat "10" = some 10 := by
  simp +decide [jsParseFloat, digitsVal, isWsChar, Char.isDigit, List.dropWhile,
    List.takeWhile]

theorem parse_zero : jsParseFloat "0" = some 0 := by
  simp +decide [jsParseFloat, digitsVal, isWsChar, Char.isDigit, List.dropWhile,
    List.takeWhile]

theorem parse_five : jsParseFloat "5" = some 5 := by
  simp +decide [jsParseFloat, digitsVal, isWsChar, Char.isDigit, List.dropWhile,
    List.takeWhile]

theorem parse_two : jsParseFloat "2" = some 2 := by
  simp +decide [jsParseFloat, digitsVal, isWsChar, Char.isDigit, List.dropWhile,
    List.takeWhile]

theorem parse_three : jsParseFloat "3" = some 3 := by
  simp +decide [jsParseFloat, digitsVal, isWsChar, Char.isDigit, List.dropWhile,
    List.takeWhile]

theorem parse_four : jsParseFloat "4" = some 4 := by
  simp +decide [jsParseFloat, digitsVal, isWsChar, Char.isDigit, List.dropWhile,
    List.takeWhile]

theorem parse_neg_one : jsParseFloat "-1" = some (-1) := by
  simp +decide [jsParseFloat, digitsVal, isWsChar, Char.isDigit, List.dropWhile,
    List.takeWhile]

theorem jsNum_ofNat (n : ℕ) [n.AtLeastTwo] :
    jsNumToString (OfNat.ofNat n : ℚ) = Nat.repr (OfNat.ofNat n) := by
  rw [show (OfNat.ofNat n : ℚ) = ((OfNat.ofNat n : ℕ) : ℚ) by norm_num,
    jsNumToString_natCast]

theorem jsNum_zero : jsNumToString (0 : ℚ) = "0" := by
  rw [show (0 : ℚ) = ((0 : ℕ) : ℚ) by norm_num, jsNumToString_natCast]
  rfl

theorem jsNum_neg_one : jsNumToString (-1 : ℚ) = "-1" := by
  rw [show (-1 : ℚ) = (((-1) : ℤ) : ℚ) by norm_num, jsNumToString_intCast]
  rfl

theorem formDivisor_in : formDivisor "in" = 144 := by
  simp +decide [formDivisor]

/-! ## Claims -/

/-- C1: for all length/height/pieceCount strings parsing to positive
finite numbers and unit `"in"` or `"cm"`, the form's auto-calculation
returns a result whose `totalArea` is `round((l·h·p)/divisor · 100)/100`
(round to 2 decimal places) with divisor 144 for `"in"` and 929 for
`"cm"`, and whose formula string echoes the exact operands and the
divisor used.  The concrete 60×120×10 inch instance (area 500.00,
formula `"(60 × 120 × 10) ÷ 144 = 500.00 sqft"`) is its witness. -/
theorem C1_area_autocalculation (ls hs ps u : String) (l h p : ℚ)
    (hl : jsParseFloat ls = some l) (hh : jsParseFloat hs = some h)
    (hp : jsParseFloat ps = some p)
    (hlpos : 0 < l) (hhpos : 0 < h) (hppos : 0 < p)
    (hu : u = "in" ∨ u = "cm") :
    computeArea ls hs u ps =
      some ⟨(round (l * h * p / (if u = "in" then 144 else 929) * 100) : ℚ) / 100,
        "(" ++ jsNumToString l ++ " × " ++ jsNumToString h ++ " × " ++ jsNumToString p
          ++ ") ÷ " ++ (if u = "in" then "144" else "929") ++ " = "
          ++ jsToFixed2 (l * h * p / (if u = "in" then 144 else 929)) ++ " sqft"⟩ := by
  have hne : ¬(ls = "" ∨ hs = "" ∨ ps = "") := by
    rintro (he | he | he)
    · rw [he, jsParseFloat_empty] at hl; exact Option.noConfusion hl
    · rw [he, jsParseFloat_empty] at hh; exact Option.noConfusion hh
    · rw [he, jsParseFloat_empty] at hp; exact Option.noConfusion hp
  unfold computeArea
  rw [if_neg hne, hl, hh, hp]
  simp only [areaCore, areaFormula, formDivisor, jsMathRound_eq_round]

/-- C1 witness: the spec's example scenario, with every hypothesis
discharged at the concrete input. -/
theorem C1_area_autocalculation_witness :
    computeArea "60" "120" "in" "10" =
      some ⟨500, "(60 × 120 × 10) ÷ 144 = 500.00 sqft"⟩ := by
  rw [C1_area_autocalculation "60" "120" "10" "in" 60 120 10 parse_sixty
    parse_onetwenty parse_ten (by norm_num) (by norm_num) (by norm_num) (Or.inl rfl)]
  rw [if_pos rfl, if_pos rfl]
  rw [show round ((60:ℚ) * 120 * 10 / 144 * 100) = 50000 by
    rw [round_eq]; exact Int.floor_eq_iff.mpr (by norm_num)]
  rw [jsToFixed2_eq_of _ 50000 (jsMathRound_eq_of _ _ (by norm_num) (by norm_num))]
  rw [jsNum_ofNat 60, jsNum_ofNat 120, jsNum_ofNat 10]
  norm_num
  rfl

/-- C2 counterexample: the claim says a zero input yields `null`, but
`"0"` parses to `0` (not `NaN`), so the calculation goes through and
produces a computed quantity `0` with a visible preview formula. -/
theorem C2_zero_not_rejected :
    jsParseFloat "0" = some 0 ∧
    computeArea "0" "5" "in" "2" ≠ none ∧
    computeArea "0" "5" "in" "2" =
      some ⟨0, "(0 × 5 × 2) ÷ 144 = 0.00 sqft"⟩ := by
  have hc : computeArea "0" "5" "in" "2" =
      some ⟨0, "(0 × 5 × 2) ÷ 144 = 0.00 sqft"⟩ := by
    unfold computeArea
    rw [if_neg (by decide), parse_zero, parse_five, parse_two]
    simp only [areaCore, areaFormula, formDivisor_in, if_true]
    rw [jsMathRound_eq_of _ 0 (by norm_num) (by norm_num)]
    rw [jsToFixed2_eq_of _ 0 (jsMathRound_eq_of _ _ (by norm_num) (by norm_num))]
    rw [jsNum_zero, jsNum_ofNat 5, jsNum_ofNat 2]
    norm_num
    rfl
  exact ⟨parse_zero, by rw [hc]; exact fun hcon => Option.noConfusion hcon, hc⟩

/-- C2 amended: the calculation returns `null` exactly when one of the
three inputs is the empty string or fails to parse (`NaN`); zero and
negative parses are not rejected and produce a computed quantity. -/
theorem C2_null_iff_empty_or_nan (ls hs u ps : String) :
    computeArea ls hs u ps = none ↔
      ls = "" ∨ hs = "" ∨ ps = "" ∨ jsParseFloat ls = none ∨
        jsParseFloat hs = none ∨ jsParseFloat ps = none := by
  unfold computeArea
  by_cases hc : ls = "" ∨ hs = "" ∨ ps = ""
  · rw [if_pos hc]
    simp only [true_iff, eq_self_iff_true]
    tauto
  · rw [if_neg hc]
    rcases h1 : jsParseFloat ls with _ | l
    · simp [h1, hc]
    rcases h2 : jsParseFloat hs with _ | h
    · simp [h1, h2, hc]
    rcases h3 : jsParseFloat ps with _ | p
    · simp [h1, h2, h3, hc]
    · simp [h1, h2, h3, hc]

theorem computeArea_inch_example :
    computeArea "60" "120" "in" "10" =
      some ⟨500, "(60 × 120 × 10) ÷ 144 = 500.00 sqft"⟩ := by
  unfold computeArea
  rw [if_neg (by decide), parse_sixty, parse_onetwenty, parse_ten]
  simp only [areaCore, areaFormula, formDivisor_in, if_true]
  rw [jsMathRound_eq_of _ 50000 (by norm_num) (by norm_num)]
  rw [jsToFixed2_eq_of _ 50000 (jsMathRound_eq_of _ _ (by norm_num) (by norm_num))]
  rw [jsNum_ofNat 60, jsNum_ofNat 120, jsNum_ofNat 10]
  norm_num
  rfl

/-- C3: the form stores the unit as `"in"`, and the form's calculation
divides by 144 for it (left conjunct); but the product-detail
provenance recomputation `calculateQuantityFormula` compares the stored
unit to `"inches"`, never `"in"`, so for the very same product it picks
929 and reports `77.50` where the form derived `500.00` — the two
implementations disagree on every inch product.  The function's own
purpose (showing how the stored quantity was derived) makes the string
comparison a slip. -/
theorem C3_divisor_mismatch :
    computeArea "60" "120" "in" "10" =
      some ⟨500, "(60 × 120 × 10) ÷ 144 = 500.00 sqft"⟩ ∧
    calculateQuantityFormula "60x120" "in" 10 =
      some "(60 × 120 × 10) ÷ 929 = 77.50 sqft" := by
  refine ⟨computeArea_inch_example, ?_⟩
  unfold calculateQuantityFormula
  rw [if_neg (not_or.mpr ⟨by decide, by norm_num⟩)]
  have hclean : ("60x120".data.filter fun c => isWsChar c = false) =
      ['6', '0', 'x', '1', '2', '0'] := by decide
  have hm1 : matchSizeNumber ['6', '0', 'x', '1', '2', '0'] =
      some (60, ['x', '1', '2', '0']) := by
    simp +decide [matchSizeNumber, digitsVal, List.takeWhile, List.dropWhile]
  have hm2 : matchSizeNumber ['1', '2', '0'] = some (120, []) := by
    simp +decide [matchSizeNumber, digitsVal, List.takeWhile, List.dropWhile]
  simp only [hclean, hm1, hm2, true_or, if_true]
  unfold calcQuantityFormulaStr
  rw [if_neg (by decide)]
  rw [jsToFixed2_eq_of _ 7750 (jsMathRound_eq_of _ _ (by norm_num) (by norm_num))]
  rw [jsNum_ofNat 60, jsNum_ofNat 120, jsNum_ofNat 10]
  rfl

/-- C4 counterexample: a negative length reaches the calculation (only
`NaN` is filtered), and the computed `totalArea` for
length `-1`, height `5`, pieces `2`, unit `"in"` is `-0.07 < 0`. -/
theorem C4_negative_total_area :
    (computeArea "-1" "5" "in" "2").map AreaResult.totalArea =
      some (-7 / 100 : ℚ) ∧ (-7 / 100 : ℚ) < 0 := by
  constructor
  · unfold computeArea
    rw [if_neg (by decide), parse_neg_one, parse_five, parse_two]
    simp only [areaCore, formDivisor_in, Option.map_some]
    rw [jsMathRound_eq_of _ (-7) (by norm_num) (by norm_num)]
    norm_num
  · norm_num

/-- C4 amended: the quantity-calculation effect is idempotent — running
it twice on the same form state equals running it once, so recomputation
from the same inputs never accumulates — and `totalArea` is non-negative
whenever the parsed length, height and piece count are non-negative
(negative inputs, which the code does not reject, yield negative
areas). -/
theorem C4_idempotent_and_nonneg :
    (∀ s : QuantityFormState,
      runQuantityEffect (runQuantityEffect s) = runQuantityEffect s) ∧
    (∀ (ls hs u ps : String) (l h p : ℚ), jsParseFloat ls = some l →
      jsParseFloat hs = some h → jsParseFloat ps = some p →
      0 ≤ l → 0 ≤ h → 0 ≤ p →
      ∀ r : AreaResult, computeArea ls hs u ps = some r → 0 ≤ r.totalArea) := by
  constructor
  · intro s
    by_cases hac : s.autoCalculateQuantity = false
    · simp [runQuantityEffect, hac]
    · by_cases hemp : s.sizeLength = "" ∨ s.sizeHeight = "" ∨ s.numberOfPieces = ""
      · simp [runQuantityEffect, hac, hemp]
      · rcases h1 : jsParseFloat s.sizeLength with _ | l
        · simp [runQuantityEffect, hac, hemp, h1]
        · rcases h2 : jsParseFloat s.sizeHeight with _ | h
          · simp [runQuantityEffect, hac, hemp, h1, h2]
          · rcases h3 : jsParseFloat s.numberOfPieces with _ | p
            · simp [runQuantityEffect, hac, hemp, h1, h2, h3]
            · simp [runQuantityEffect, hac, hemp, h1, h2, h3]
  · intro ls hs u ps l h p hl hh hp l0 h0 p0 r hr
    have hne : ¬(ls = "" ∨ hs = "" ∨ ps = "") := by
      rintro (he | he | he)
      · rw [he, jsParseFloat_empty] at hl; exact Option.noConfusion hl
      · rw [he, jsParseFloat_empty] at hh; exact Option.noConfusion hh
      · rw [he, jsParseFloat_empty] at hp; exact Option.noConfusion hp
    unfold computeArea at hr
    rw [if_neg hne] at hr
    simp only [hl, hh, hp, Option.some.injEq] at hr
    subst hr
    show (0 : ℚ) ≤ (jsMathRound (l * h * p / formDivisor u * 100) : ℚ) / 100
    have hd : (0 : ℚ) < formDivisor u := by
      unfold formDivisor
      split_ifs <;> norm_num
    have hq : (0 : ℚ) ≤ l * h * p / formDivisor u * 100 := by
      have := mul_nonneg (mul_nonneg l0 h0) p0
      positivity
    have hz : (0 : ℤ) ≤ jsMathRound (l * h * p / formDivisor u * 100) := by
      unfold jsMathRound
      rw [Int.le_floor]
      push_cast
      linarith
    exact div_nonneg (by exact_mod_cast hz) (by norm_num)

/-- The form state of the C4 witness instance. -/
def demoFormState : QuantityFormState :=
  ⟨"2", "3", "in", "4", "", none, none, true⟩

/-- C4 witness: the amended claim applied at a concrete form state and
at the concrete non-negative inputs 2, 3, 4. -/
theorem C4_idempotent_and_nonneg_witness :
    runQuantityEffect (runQuantityEffect demoFormState) =
      runQuantityEffect demoFormState ∧
    (0 : ℚ) ≤ (areaCore "in" 2 3 4).totalArea := by
  refine ⟨C4_idempotent_and_nonneg.1 demoFormState, ?_⟩
  have hc : computeArea "2" "3" "in" "4" = some (areaCore "in" 2 3 4) := by
    unfold computeArea
    rw [if_neg (by decide), parse_two, parse_three, parse_four]
  exact C4_idempotent_and_nonneg.2 "2" "3" "in" "4" 2 3 4 parse_two parse_three
    parse_four (by norm_num) (by norm_num) (by norm_num) (areaCore "in" 2 3 4) hc

theorem tileOf_nearSquareCellOp (w h x y : ℕ) :
    tileOf w h (nearSquareCellOp w h x y) = claimGridTile w h x y := by
  unfold tileOf nearSquareCellOp claimGridTile
  by_cases hx : x % 2 = 1 <;> by_cases hy : y % 2 = 1 <;>
    simp +decide [hx, hy, Tile.mk.injEq]

theorem tileOf_gridCellOp (w h x y : ℕ) :
    tileOf w h (gridCellOp w h x y) = claimGridTile w h x y := by
  unfold tileOf gridCellOp claimGridTile
  by_cases hx : x % 2 = 1 <;> by_cases hy : y % 2 = 1 <;>
    simp +decide [hx, hy, Tile.mk.injEq]

theorem map_tileOf_grid4 (w h : ℕ) (f : ℕ → ℕ → DrawOp) (g : ℕ → ℕ → Tile)
    (hfg : ∀ x y, tileOf w h (f x y) = g x y) :
    ((List.range 4).flatMap fun y => (List.range 4).map fun x => f x y).map
        (tileOf w h) =
      (List.range 4).flatMap fun y => (List.range 4).map fun x => g x y := by
  simp only [List.map_flatMap, List.map_map, Function.comp_def, hfg]

theorem map_tileOf_quadrants (w h : ℕ) :
    (squareQuadrantOps w h).map (tileOf w h) =
      [⟨0, 0, false, false⟩, ⟨(w : ℤ), 0, true, false⟩,
       ⟨0, (h : ℤ), false, true⟩, ⟨(w : ℤ), (h : ℤ), true, true⟩] := by
  unfold squareQuadrantOps tileOf
  simp +decide [Tile.mk.injEq]
  omega

/-- C5: the bookmatch compositor's strategy selection.  For a source of
exactly 488×488 or 646×646 the canvas is `2w × 2h` and the four draws
place the source at the top-left, its horizontal mirror at the
top-right, its vertical mirror at the bottom-left and the double mirror
at the bottom-right.  For every other size — nearly square
(`|w − h| < 20`) or not — the canvas is `4w × 4h` and the 16 draws tile
cell `(x, y)` at `(x·w, y·h)` flipped horizontally exactly when `x` is
odd and vertically exactly when `y` is odd (the nearly-square and
non-square branches compute identical placements). -/
theorem C5_bookmatch_strategy (w h : ℕ) (hw : 0 < w) (hh : 0 < h) :
    (((w, h) = (488, 488) ∨ (w, h) = (646, 646)) →
      (createBookmatchedDraws w h).1 = (2 * w, 2 * h) ∧
      (createBookmatchedDraws w h).2.map (tileOf w h) =
        [⟨0, 0, false, false⟩, ⟨(w : ℤ), 0, true, false⟩,
         ⟨0, (h : ℤ), false, true⟩, ⟨(w : ℤ), (h : ℤ), true, true⟩]) ∧
    (¬((w, h) = (488, 488) ∨ (w, h) = (646, 646)) →
      (createBookmatchedDraws w h).1 = (4 * w, 4 * h) ∧
      (createBookmatchedDraws w h).2.map (tileOf w h) =
        (List.range 4).flatMap fun y =>
          (List.range 4).map fun x => claimGridTile w h x y) := by
  constructor
  · intro hsp
    have hcond : (w = 488 ∧ h = 488) ∨ (w = 646 ∧ h = 646) := by
      rcases hsp with hsp | hsp <;> [left; right] <;>
        exact ⟨congrArg Prod.fst hsp, congrArg Prod.snd hsp⟩
    unfold createBookmatchedDraws
    rw [if_pos hcond]
    exact ⟨rfl, map_tileOf_quadrants w h⟩
  · intro hsp
    have hcond : ¬((w = 488 ∧ h = 488) ∨ (w = 646 ∧ h = 646)) := by
      rintro (⟨rfl, rfl⟩ | ⟨rfl, rfl⟩) <;> exact hsp (by simp)
    unfold createBookmatchedDraws
    rw [if_neg hcond]
    by_cases hnear : ((w : ℤ) - h).natAbs < 20
    · rw [if_pos hnear]
      exact ⟨rfl, map_tileOf_grid4 w h _ _ (tileOf_nearSquareCellOp w h)⟩
    · rw [if_neg hnear]
      exact ⟨rfl, map_tileOf_grid4 w h _ _ (tileOf_gridCellOp w h)⟩

/-- C5 witness: the special-size branch at 488×488 and the grid branch
at 800×400, with the hypotheses discharged concretely. -/
theorem C5_bookmatch_strategy_witness :
    (createBookmatchedDraws 488 488).1 = (976, 976) ∧
    (createBookmatchedDraws 488 488).2.map (tileOf 488 488) =
      [⟨0, 0, false, false⟩, ⟨488, 0, true, false⟩,
       ⟨0, 488, false, true⟩, ⟨488, 488, true, true⟩] ∧
    (createBookmatchedDraws 800 400).1 = (3200, 1600) := by
  have h1 := (C5_bookmatch_strategy 488 488 (by norm_num) (by norm_num)).1
    (Or.inl rfl)
  have h2 := (C5_bookmatch_strategy 800 400 (by norm_num) (by norm_num)).2
    (by rintro (hc | hc) <;> exact absurd (congrArg Prod.fst hc) (by decide))
  refine ⟨?_, ?_, ?_⟩
  · rw [h1.1]
  · rw [h1.2]
    norm_num
  · rw [h2.1]

/-- A concrete width measure (30 px per character) used to exercise the
wrap loop: any two 5-character words exceed the fixed 150 px budget. -/
def demoMeasure (s : String) : ℚ := 30 * s.length

theorem wrapGo_rows (measure : String → ℚ) (maxW : ℚ) :
    ∀ (ws : List String) (line : String) (y lc : ℕ) (first : Bool)
      (e : String × ℕ), e ∈ wrapGo measure maxW ws line y lc first →
      ∃ k : ℕ, k ≤ 2 - lc ∧ e.2 = y + 20 * k := by
  intro ws
  induction ws with
  | nil =>
    intro line y lc first e he
    simp only [wrapGo] at he
    by_cases hlc : lc < 3
    · rw [if_pos hlc] at he
      rw [List.mem_singleton] at he
      exact ⟨0, by omega, by simp [he]⟩
    · rw [if_neg hlc] at he
      exact absurd he (List.not_mem_nil e)
  | cons word rest ih =>
    intro line y lc first e he
    simp only [wrapGo] at he
    by_cases hb : 2 ≤ lc ∧ rest ≠ []
    · rw [if_pos hb] at he
      rcases List.mem_cons.mp he with heq | hmem
      · exact ⟨0, by omega, by simp [heq]⟩
      · by_cases hlc : lc < 3
        · rw [if_pos hlc, List.mem_singleton] at hmem
          exact ⟨0, by omega, by simp [hmem]⟩
        · rw [if_neg hlc] at hmem
          exact absurd hmem (List.not_mem_nil e)
    · rw [if_neg hb] at he
      by_cases hw : maxW < measure (line ++ word ++ " ") ∧ first = false
      · rw [if_pos hw] at he
        rcases List.mem_cons.mp he with heq | hmem
        · exact ⟨0, by omega, by simp [heq]⟩
        · by_cases hlc : lc ≤ 1
          · obtain ⟨k, hk, hek⟩ := ih (word ++ " ") (y + 20) (lc + 1) false e hmem
            exact ⟨k + 1, by omega, by omega⟩
          · have hrest : rest = [] := by
              by_contra hne
              exact hb ⟨by omega, hne⟩
            subst hrest
            simp only [wrapGo] at hmem
            rw [if_neg (by omega)] at hmem
            exact absurd hmem (List.not_mem_nil e)
      · rw [if_neg hw] at he
        exact ih (line ++ word ++ " ") y lc false e he

theorem wrap_four_wide_words :
    wrapProductName demoMeasure 150 "aaaaa bbbbb ccccc ddddd" =
      [("Aaaaa ", 810), ("Bbbbb ", 830), ("Ccccc ", 850)] := by
  unfold wrapProductName
  rw [show splitOnSpace (capitalizeName "aaaaa bbbbb ccccc ddddd") =
    ["Aaaaa", "Bbbbb", "Ccccc", "Ddddd"] from by decide]
  norm_num [wrapGo, demoMeasure]
  norm_num [(by decide : ("Aaaaa" : String).length = 5),
    (by decide : ("Bbbbb" : String).length = 5),
    (by decide : ("Ccccc" : String).length = 5),
    (by decide : ("Ddddd" : String).length = 5),
    (by decide : (" " : String).length = 1)]
  decide

theorem wrap_five_words_ellipsis :
    wrapProductName demoMeasure 150 "aaaaa bbbbb cc dd ee" =
      [("Aaaaa ", 810), ("Bbbbb ", 830), ("Cc ...", 850), ("Cc ", 850)] := by
  unfold wrapProductName
  rw [show splitOnSpace (capitalizeName "aaaaa bbbbb cc dd ee") =
    ["Aaaaa", "Bbbbb", "Cc", "Dd", "Ee"] from by decide]
  norm_num [wrapGo, demoMeasure]
  norm_num [(by decide : ("Aaaaa" : String).length = 5),
    (by decide : ("Bbbbb" : String).length = 5),
    (by decide : ("Cc" : String).length = 2),
    (by decide : ("Dd" : String).length = 2),
    (by decide : ("Ee" : String).length = 2),
    (by decide : (" " : String).length = 1)]
  decide

/-- C6 counterexample: with a measure under which each of the four
words overflows a line by itself (so a greedy wrap needs 4 lines), the
overflow happens at the LAST word: the loop draws three lines, drops
`"Ddddd"`, and no drawn string carries an ellipsis — contradicting
"whenever the greedy wrap would require more than 3 lines the drawn
text is truncated with an ellipsis" (no drawn string even ends in a
period, so none ends in the ellipsis the claim requires). -/
theorem C6_last_word_dropped_silently :
    wrapProductName demoMeasure 150 "aaaaa bbbbb ccccc ddddd" =
      [("Aaaaa ", 810), ("Bbbbb ", 830), ("Ccccc ", 850)] ∧
    ((wrapProductName demoMeasure 150 "aaaaa bbbbb ccccc ddddd").all
      fun e => decide (e.1.data.getLast? ≠ some '.')) = true ∧
    150 < demoMeasure "Ccccc Ddddd " := by
  refine ⟨wrap_four_wide_words, ?_, ?_⟩
  · rw [wrap_four_wide_words]
    decide
  · unfold demoMeasure
    norm_num [(by decide : ("Ccccc Ddddd " : String).length = 12)]

/-- C6 amended: the QR card name layout is the greedy loop (the first
word never wraps); every `fillText` lands on one of the three fixed
line positions y = 810, 830, 850, so at most 3 text lines are rendered;
when the cut occurs before the last word an ellipsis line is drawn at
the third position (the source's `break` skips neither the ellipsis
draw nor the trailing draw, so the bare third line is painted at the
same y), but an overflow at the last word drops that word with no
ellipsis. -/
theorem C6_wrap_three_rows :
    (∀ (measure : String → ℚ) (maxW : ℚ) (name : String) (e : String × ℕ),
      e ∈ wrapProductName measure maxW name →
      e.2 = 810 ∨ e.2 = 830 ∨ e.2 = 850) ∧
    wrapProductName demoMeasure 150 "aaaaa bbbbb cc dd ee" =
      [("Aaaaa ", 810), ("Bbbbb ", 830), ("Cc ...", 850), ("Cc ", 850)] ∧
    wrapProductName demoMeasure 150 "aaaaa bbbbb ccccc ddddd" =
      [("Aaaaa ", 810), ("Bbbbb ", 830), ("Ccccc ", 850)] := by
  refine ⟨?_, wrap_five_words_ellipsis, wrap_four_wide_words⟩
  intro measure maxW name e he
  obtain ⟨k, hk, hek⟩ := wrapGo_rows measure maxW
    (splitOnSpace (capitalizeName name)) "" 810 0 true e he
  omega

/-- C6 witness: the amended claim's universal part applied to a drawn
event of a concrete run. -/
theorem C6_wrap_three_rows_witness :
    ("Aaaaa ", (810 : ℕ)) ∈ wrapProductName demoMeasure 150 "aaaaa bbbbb ccccc ddddd" ∧
    ((810 : ℕ) = 810 ∨ (810 : ℕ) = 830 ∨ (810 : ℕ) = 850) := by
  have hmem : ("Aaaaa ", (810 : ℕ)) ∈
      wrapProductName demoMeasure 150 "aaaaa bbbbb ccccc ddddd" := by
    rw [wrap_four_wide_words]
    exact List.mem_cons_self _ _
  exact ⟨hmem, C6_wrap_three_rows.1 demoMeasure 150 "aaaaa bbbbb ccccc ddddd"
    ("Aaaaa ", 810) hmem⟩

/-- C7: every call site builds exactly
`<origin>/product/<productId>`; the `QRCodeGenerator` variant agrees
with the `window.location.origin` sites when a browsing context exists
and falls back to the fixed production URL when none does; and for a
well-formed product id (nonempty, no `?`, not ending in `/`) the built
URL has no query string and no trailing slash. -/
theorem C7_product_url (w : WindowLoc) (pid : String)
    (hpne : pid.data ≠ [])
    (hq1 : '?' ∉ (windowOrigin w).data) (hq2 : '?' ∉ pid.data)
    (hsl : pid.data.getLast? ≠ some '/') :
    buildProductUrl w pid = windowOrigin w ++ "/product/" ++ pid ∧
    buildProductUrlGen (some w) pid = buildProductUrl w pid ∧
    buildProductUrlGen none pid =
      "https://evershine-agent.vercel.app/product/" ++ pid ∧
    '?' ∉ (buildProductUrl w pid).data ∧
    (buildProductUrl w pid).data.getLast? ≠ some '/' := by
  refine ⟨rfl, rfl, rfl, ?_, ?_⟩
  · intro hmem
    unfold buildProductUrl at hmem
    simp only [String.data_append, List.mem_append] at hmem
    rcases hmem with (hin | hin) | hin
    · exact hq1 hin
    · exact absurd hin (by decide)
    · exact hq2 hin
  · unfold buildProductUrl
    rw [String.data_append, List.getLast?_append]
    cases hl : pid.data.getLast? with
    | none => exact absurd (List.getLast?_eq_none_iff.mp hl) hpne
    | some c =>
      rw [hl] at hsl
      intro hcon
      rw [Option.or] at hcon
      exact hsl hcon

/-- C7 witness: the spec's `buildProductUrl("abc123")` example at a
concrete localhost origin, plus the no-browsing-context fallback. -/
theorem C7_product_url_witness :
    buildProductUrl ⟨"http:", "localhost:3000"⟩ "abc123" =
      "http://localhost:3000/product/abc123" ∧
    buildProductUrlGen none "abc123" =
      "https://evershine-agent.vercel.app/product/abc123" ∧
    '?' ∉ (buildProductUrl ⟨"http:", "localhost:3000"⟩ "abc123").data ∧
    (buildProductUrl ⟨"http:", "localhost:3000"⟩ "abc123").data.getLast? ≠
      some '/' := by
  have h := C7_product_url ⟨"http:", "localhost:3000"⟩ "abc123" (by decide)
    (by decide) (by decide) (by decide)
  exact ⟨by rw [h.1]; rfl, by rw [h.2.2.1]; rfl, h.2.2.2.1, h.2.2.2.2⟩

/-- C8 counterexample: the encoding options are NOT identical across
call sites — the product form passes margin 2 where the list page
passes margin 1, and the simple download passes width 300 where every
other site passes 200. -/
theorem C8_options_not_uniform :
    productFormQROptions ≠ listPageQROptions ∧
    simpleDownloadQROptions ≠ listPageQROptions ∧
    productFormQROptions.margin = 2 ∧ listPageQROptions.margin = 1 ∧
    simpleDownloadQROptions.width = 300 ∧ listPageQROptions.width = 200 := by
  refine ⟨?_, ?_, rfl, rfl, rfl, rfl⟩ <;> decide

/-- C8 amended: every QR-encoding call site fixes the same two-colour
black/white palette and never supplies an error-correction level or any
branding option; the width is 200 everywhere except the product-detail
simple download (300), and the margin is 1 everywhere except the
product form (2). -/
theorem C8_options_inventory :
    listPageQROptions = ⟨200, 1, "#000000", "#ffffff", none⟩ ∧
    productFormQROptions = ⟨200, 2, "#000000", "#ffffff", none⟩ ∧
    generatorQROptions = ⟨200, 1, "#000000", "#ffffff", none⟩ ∧
    detailDownloadQROptions = ⟨200, 1, "#000000", "#ffffff", none⟩ ∧
    simpleDownloadQROptions = ⟨300, 1, "#000000", "#ffffff", none⟩ := by
  exact ⟨rfl, rfl, rfl, rfl, rfl⟩

/-- C9: on an image-load failure the bookmatch compositor falls back to
the original unmodified product image URL as the texture and marks the
texture ready; and every load outcome (success or failure) ends with
the ready flag set — the handler returns a state, it never throws. -/
theorem C9_bookmatch_error_fallback (imageUrl : String) :
    bookmatchResult imageUrl LoadOutcome.failed =
      (Texture.original imageUrl, true) ∧
    ∀ o : LoadOutcome, (bookmatchResult imageUrl o).2 = true := by
  refine ⟨rfl, ?_⟩
  intro o
  cases o <;> rfl

/-- Five server image URLs, as an edit session of a 5-image product
starts with. -/
def demoServerPreviews : List String := ["u1", "u2", "u3", "u4", "u5"]

/-- Ten valid new files (accepted type, small size). -/
def demoNewFiles : List ImgFile :=
  (List.range 10).map fun i => ⟨"image/png", 1000, "blob:" ++ Nat.repr i⟩

/-- Eleven valid new files. -/
def demoElevenFiles : List ImgFile :=
  (List.range 11).map fun i => ⟨"image/png", 1000, "blob:" ++ Nat.repr i⟩

/-- C10 counterexample: from the reachable edit-session start with 5
server previews, adding 10 valid files passes the guard (which counts
only the `images` array of NEW files, 0 + 10 ≤ 10) and leaves the form
with 15 previews — the preview count exceeds 10. -/
theorem C10_edit_previews_exceed_ten :
    ReachableImages
      (handleImageChange ⟨FormMode.edit, 5, [], demoServerPreviews, none⟩
        demoNewFiles) ∧
    (handleImageChange ⟨FormMode.edit, 5, [], demoServerPreviews, none⟩
        demoNewFiles).previews.length = 15 := by
  constructor
  · exact ReachableImages.add _ _
      (ReachableImages.initEdit demoServerPreviews (by decide))
  · decide

theorem reachable_images_core (s : ImagesState) (hs : ReachableImages s) :
    s.images.length ≤ 10 ∧
    s.previews.length ≤ s.initialCount + s.images.length ∧
    (s.mode = FormMode.create →
      s.initialCount = 0 ∧ s.previews.length = s.images.length) := by
  induction hs with
  | initCreate => simp
  | initEdit urls h =>
    refine ⟨by simp, by simp, ?_⟩
    intro hc
    exact absurd hc (by simp)
  | add s files hrs ih =>
    obtain ⟨ih1, ih2, ih3⟩ := ih
    unfold handleImageChange
    by_cases h10 : 10 < s.images.length + files.length
    · rw [if_pos h10]
      exact ⟨ih1, ih2, fun hc => ih3 hc⟩
    · rw [if_neg h10]
      have hle : (files.filter validateImage).length ≤ files.length :=
        List.length_filter_le _ _
      cases hlast : (files.filter fun f => validateImage f = false).getLast? with
      | some f =>
        by_cases hval : (files.filter validateImage).length ≠ files.length
        · rw [if_pos hval]
          exact ⟨ih1, ih2, fun hc => ih3 hc⟩
        · rw [if_neg hval]
          push_neg at hval
          refine ⟨?_, ?_, ?_⟩
          · simp only [List.length_append]
            omega
          · simp only [List.length_append, List.length_map]
            omega
          · intro hc
            obtain ⟨hi0, hieq⟩ := ih3 hc
            simp only [List.length_append, List.length_map]
            omega
      | none =>
        by_cases hval : (files.filter validateImage).length ≠ files.length
        · rw [if_pos hval]
          exact ⟨ih1, ih2, fun hc => ih3 hc⟩
        · rw [if_neg hval]
          push_neg at hval
          refine ⟨?_, ?_, ?_⟩
          · simp only [List.length_append]
            omega
          · simp only [List.length_append, List.length_map]
            omega
          · intro hc
            obtain ⟨hi0, hieq⟩ := ih3 hc
            simp only [List.length_append, List.length_map]
            omega
  | remove s i hrs ih =>
    obtain ⟨ih1, ih2, ih3⟩ := ih
    unfold removeImage
    by_cases hedit : s.mode = FormMode.edit ∧ i < s.initialCount
    · rw [if_pos hedit]
      refine ⟨ih1, ?_, ?_⟩
      · simp only [List.length_eraseIdx]
        split_ifs <;> omega
      · intro hc
        rw [hedit.1] at hc
        exact absurd hc (by simp)
    · rw [if_neg hedit]
      by_cases hm : s.mode = FormMode.edit
      · rw [if_pos hm]
        have hge : s.initialCount ≤ i := by
          by_contra hlt
          exact hedit ⟨hm, by omega⟩
        refine ⟨?_, ?_, ?_⟩
        · simp only [List.length_eraseIdx]
          split_ifs <;> omega
        · simp only [List.length_eraseIdx]
          split_ifs <;> omega
        · intro hc
          rw [hm] at hc
          exact absurd hc (by simp)
      · rw [if_neg hm]
        have hc : s.mode = FormMode.create := by
          cases hmode : s.mode
          · rfl
          · exact absurd hmode hm
        obtain ⟨hi0, hieq⟩ := ih3 hc
        refine ⟨?_, ?_, ?_⟩
        · simp only [List.length_eraseIdx]
          split_ifs <;> omega
        · simp only [List.length_eraseIdx]
          split_ifs <;> omega
        · intro _
          refine ⟨hi0, ?_⟩
          simp only [List.length_eraseIdx]
          split_ifs <;> omega

/-- C10 amended: the guard bounds the NEW-file list, not the preview
list: in every reachable state at most 10 new files are held, previews
never exceed the initial server-image count plus the new files (hence
initialCount + 10; in create mode previews and files coincide, so there
at most 10 previews) — but an edit session can exceed 10 previews, as
the counterexample shows.  An addition that would push the new-file
count past 10 is rejected wholesale with the limit message and leaves
both lists unchanged. -/
theorem C10_image_list_bounds :
    (∀ s : ImagesState, ReachableImages s →
      s.images.length ≤ 10 ∧
      s.previews.length ≤ s.initialCount + s.images.length ∧
      s.previews.length ≤ s.initialCount + 10 ∧
      (s.mode = FormMode.create →
        s.initialCount = 0 ∧ s.previews.length = s.images.length)) ∧
    (∀ (s : ImagesState) (files : List ImgFile),
      10 < s.images.length + files.length →
      (handleImageChange s files).images = s.images ∧
      (handleImageChange s files).previews = s.previews ∧
      (handleImageChange s files).message =
        some "You can only upload up to 10 images in total") := by
  constructor
  · intro s hs
    obtain ⟨h1, h2, h3⟩ := reachable_images_core s hs
    exact ⟨h1, h2, by omega, h3⟩
  · intro s files h10
    unfold handleImageChange
    rw [if_pos h10]
    exact ⟨rfl, rfl, rfl⟩

/-- C10 witness: the amended claim applied at the empty create-session
state and at a concrete over-limit addition of 11 files. -/
theorem C10_image_list_bounds_witness :
    (handleImageChange ⟨FormMode.create, 0, [], [], none⟩ demoElevenFiles).images
      = [] ∧
    (handleImageChange ⟨FormMode.create, 0, [], [], none⟩ demoElevenFiles).previews
      = [] ∧
    (handleImageChange ⟨FormMode.create, 0, [], [], none⟩ demoElevenFiles).message
      = some "You can only upload up to 10 images in total" ∧
    (⟨FormMode.create, 0, [], [], none⟩ : ImagesState).previews.length ≤ 10 := by
  have h2 := C10_image_list_bounds.2 ⟨FormMode.create, 0, [], [], none⟩
    demoElevenFiles (by decide)
  have h1 := C10_image_list_bounds.1 ⟨FormMode.create, 0, [], [], none⟩
    ReachableImages.initCreate
  exact ⟨h2.1, h2.2.1, h2.2.2, le_trans (le_of_eq rfl) h1.2.2.1⟩

end Evershine
